import Mathlib

/-!
Shallow embedding of the rating-aggregation and ranking core of the
watchmate catalog-and-review service (Django source under
`watchmate/watchlist/`).  Machine state is the database snapshot: the
`WatchList` (item) rows and `Review` rows.  Floating-point item averages
are modelled exactly over `ℚ`; DateTime columns are `Nat` timestamps.
Each Django view's write path is translated into an explicit
state-passing function returning `Except ApiError`; an exception raised
by the view before any `save()` corresponds to an `error` result that
carries no new state.
-/

deriving instance DecidableEq for Except

namespace Watchmate

/-- A `WatchList` row (models.py `WatchList`): catalog item with the two
derived aggregate columns `avg_rating` (FloatField, default 0, here exact
`ℚ`) and `number_rating` (IntegerField, default 0).  `genres` is the set
of associated genre ids (ManyToMany). -/
structure Item where
  id : Nat
  title : String
  storyline : String
  platform : Nat
  active : Bool
  avg_rating : ℚ
  number_rating : Int
  created : Nat
  genres : List Nat
  deriving DecidableEq

/-- A `Review` row (models.py `Review`): `rating` is a PositiveIntegerField
with `MinValueValidator 1` / `MaxValueValidator 5`; `watchlist` is the
foreign key to the reviewed item; `helpful_count` an IntegerField default 0. -/
structure Review where
  id : Nat
  review_user : Nat
  rating : Nat
  description : Option String
  watchlist : Nat
  active : Bool
  created : Nat
  is_spoiler : Bool
  helpful_count : Int
  deriving DecidableEq

/-- The database snapshot: item rows, review rows, and the next
auto-assigned review primary key. -/
structure DB where
  items : List Item
  reviews : List Review
  nextReviewId : Nat
  deriving DecidableEq

/-- The error outcomes the review/vote views can produce:
`invalidRating` (serializer validators reject the rating),
`duplicateReview` (the `ValidationError` in `ReviewCreate.perform_create`),
`notFound` (object lookup fails), `forbidden` (object permission denied). -/
inductive ApiError where
  | invalidRating
  | duplicateReview
  | notFound
  | forbidden
  deriving DecidableEq

/-- Serializer-level rating validation: `MinValueValidator(1)` and
`MaxValueValidator(5)` on `Review.rating`. -/
def validRating (r : Nat) : Bool := decide (1 ≤ r) && decide (r ≤ 5)

/-- `WatchList.objects.get(pk=pk)` / `get_object_or_404`: first item row
with the given primary key. -/
def findItem (db : DB) (pk : Nat) : Option Item :=
  db.items.find? (fun i => i.id == pk)

/-- `Review.objects.get(pk=pk)`: first review row with the given primary key. -/
def findReview (db : DB) (pk : Nat) : Option Review :=
  db.reviews.find? (fun r => r.id == pk)

/-- `instance.save()` on an item: write the row back by primary key. -/
def saveItem (db : DB) (it : Item) : DB :=
  { db with items := db.items.map (fun j => if j.id == it.id then it else j) }

/-- `instance.save()` on a review: write the row back by primary key. -/
def saveReview (db : DB) (rv : Review) : DB :=
  { db with reviews := db.reviews.map (fun s => if s.id == rv.id then rv else s) }

/-- `ReviewCreate` (POST `<pk>/reviews/create/`): serializer validation of
the rating runs first (`is_valid`), then `perform_create` looks up the
item (`WatchList.objects.get` — a missing item raises before any write),
rejects a duplicate `(watchlist, review_user)` pair over ALL review rows,
recomputes `avg_rating` from `avg_rating * number_rating`, bumps
`number_rating`, saves the item and then the new review.  The serializer
exposes `active`/`is_spoiler`/`description` as writable payload fields. -/
def createReview (db : DB) (userId pk rating : Nat) (description : Option String)
    (activeFlag spoilerFlag : Bool) (now : Nat) : Except ApiError DB :=
  if !validRating rating then .error .invalidRating
  else
    match findItem db pk with
    | none => .error .notFound
    | some watchlist =>
      if db.reviews.any (fun r => r.watchlist == pk && r.review_user == userId) then
        .error .duplicateReview
      else
        let newAvg : ℚ :=
          if watchlist.number_rating == 0 then (rating : ℚ)
          else (watchlist.avg_rating * (watchlist.number_rating : ℚ) + (rating : ℚ)) /
            ((watchlist.number_rating : ℚ) + 1)
        let db1 := saveItem db
          { watchlist with avg_rating := newAvg, number_rating := watchlist.number_rating + 1 }
        .ok { db1 with
          reviews := db1.reviews ++
            [{ id := db.nextReviewId, review_user := userId, rating := rating,
               description := description, watchlist := pk, active := activeFlag,
               created := now, is_spoiler := spoilerFlag, helpful_count := 0 }]
          nextReviewId := db.nextReviewId + 1 }

/-- Modelled from the spec: `watchlist/api/permissions.py` is not in the
source tree; per the spec, a write to a review fails with `Forbidden`
unless the actor is the owning user (`IsReviewUserOrReadOnly`). -/
def isReviewOwner (rv : Review) (actorId : Nat) : Bool :=
  rv.review_user == actorId

/-- `ReviewDetail` PUT (RetrieveUpdateDestroyAPIView): object lookup
(404), object permission (403), serializer validation of the rating, then
save of the writable fields.  No aggregate recomputation happens on this
path — the item rows are untouched. -/
def updateReview (db : DB) (reviewId actorId newRating : Nat)
    (newDescription : Option (Option String)) (newActive newSpoiler : Option Bool) :
    Except ApiError DB :=
  match findReview db reviewId with
  | none => .error .notFound
  | some rv =>
    if !isReviewOwner rv actorId then .error .forbidden
    else if !validRating newRating then .error .invalidRating
    else .ok (saveReview db
      { rv with
        rating := newRating
        description := newDescription.getD rv.description
        active := newActive.getD rv.active
        is_spoiler := newSpoiler.getD rv.is_spoiler })

/-- `ReviewDetail` DELETE: object lookup (404), object permission (403),
then `instance.delete()` removes the review row.  No aggregate
recomputation happens on this path either. -/
def deleteReview (db : DB) (reviewId actorId : Nat) : Except ApiError DB :=
  match findReview db reviewId with
  | none => .error .notFound
  | some rv =>
    if !isReviewOwner rv actorId then .error .forbidden
    else .ok { db with reviews := db.reviews.filter (fun s => s.id != rv.id) }

/-- `ReviewHelpfulView.post` (POST `reviews/<pk>/helpful/`): fetch the
review, increment `helpful_count`, save, and return the new count; a
missing review answers 404 with no state change. -/
def markHelpful (db : DB) (pk : Nat) : Except ApiError (Int × DB) :=
  match findReview db pk with
  | none => .error .notFound
  | some rv =>
    let rv2 := { rv with helpful_count := rv.helpful_count + 1 }
    .ok (rv2.helpful_count, saveReview db rv2)

/-- The payload `WatchListSerializer` accepts: `title`, `storyline`,
`platform_id` and `genre_ids` are required; `avg_rating`,
`number_rating` and `active` are writable model fields with defaults, so
a request may supply them or omit them (the serializer's `Meta.fields`
lists `avg_rating` and `number_rating` with no `read_only_fields`). -/
structure WatchListPayload where
  title : String
  storyline : String
  platform_id : Nat
  genre_ids : List Nat
  avg_rating : Option ℚ
  number_rating : Option Int
  active : Option Bool
  deriving DecidableEq

/-- `WatchDetailAV.put` (PUT `<pk>/`): fetch the item, run
`WatchListSerializer` on the payload, save every provided writable field. -/
def watchListPut (db : DB) (pk : Nat) (p : WatchListPayload) : Except ApiError DB :=
  match findItem db pk with
  | none => .error .notFound
  | some movie =>
    .ok (saveItem db
      { movie with
        title := p.title
        storyline := p.storyline
        platform := p.platform_id
        genres := p.genre_ids
        avg_rating := p.avg_rating.getD movie.avg_rating
        number_rating := p.number_rating.getD movie.number_rating
        active := p.active.getD movie.active })

/-- The active reviews of an item — the spec's reference set for the
derived aggregate. -/
def activeReviews (db : DB) (pk : Nat) : List Review :=
  db.reviews.filter (fun r => r.watchlist == pk && r.active)

/-- Modelled from the spec's words, for comparison with the stored
aggregate: the arithmetic mean of the ratings of the currently-active
reviews of an item, 0 when there are none. -/
def specMeanRating (db : DB) (pk : Nat) : ℚ :=
  let rs := activeReviews db pk
  if rs.length = 0 then 0
  else ((rs.map (fun r => (r.rating : ℚ))).sum) / (rs.length : ℚ)

/-- The WHERE clause of `TopRatedMoviesView.get_queryset`:
`number_rating__gte=10, active=True`. -/
def topRatedQualifies (i : Item) : Bool :=
  decide ((10 : Int) ≤ i.number_rating) && i.active

/-- `TopRatedMoviesView.get_queryset`:
`filter(number_rating__gte=10, active=True).order_by(-avg_rating)[:50]`.
`order_by` names no secondary key, so rows with equal `avg_rating` keep
the backend's underlying order; the snapshot order of `items` stands in
for that underlying order, and the stable `mergeSort` realises the sort. -/
def topRatedMovies (items : List Item) : List Item :=
  ((items.filter topRatedQualifies).mergeSort
    (fun a b => decide (b.avg_rating ≤ a.avg_rating))).take 50

/-- The review rows of item `pk` whose `created` lies in the trailing
window (`reviews__created__gte=cutoff`, with `cutoff = now - 7 days`). -/
def recentReviews (reviews : List Review) (cutoff pk : Nat) : List Review :=
  reviews.filter (fun r => r.watchlist == pk && decide (cutoff ≤ r.created))

/-- The SQL join produced by
`filter(reviews__created__gte=cutoff, active=True)` in
`TrendingMoviesView.get_queryset`: one row per (active item, review of
that item inside the window) pair. -/
def trendingJoin (items : List Item) (reviews : List Review) (cutoff : Nat) :
    List (Item × Review) :=
  (items.filter (fun i => i.active)).flatMap
    (fun i => (recentReviews reviews cutoff i.id).map (fun r => (i, r)))

/-- Worker for the GROUP BY: one output row per item primary key in
first-occurrence order, counting every joined row carrying that key;
keys already emitted (`seen`) are skipped. -/
def groupRowsAux (seen : List Nat) : List (Item × Review) → List (Item × Nat)
  | [] => []
  | (i, _) :: rest =>
    if i.id ∈ seen then groupRowsAux seen rest
    else (i, 1 + rest.countP (fun p => p.1.id == i.id)) ::
      groupRowsAux (i.id :: seen) rest

/-- The GROUP BY over the join that `annotate(recent_review_count=Count('reviews'))`
adds: one output row per item primary key, counting the joined rows of
that key (so the count ranges over the window-filtered join, not over
all of the item's reviews). -/
def groupRows (rows : List (Item × Review)) : List (Item × Nat) :=
  groupRowsAux [] rows

/-- `TrendingMoviesView.get_queryset`: the annotated rows ordered by
`-recent_review_count` (stable over the snapshot order, as for top-rated)
and truncated to 10. -/
def trendingMovies (items : List Item) (reviews : List Review) (cutoff : Nat) :
    List Item :=
  (((groupRows (trendingJoin items reviews cutoff)).mergeSort
    (fun a b => decide (b.2 ≤ a.2))).take 10).map Prod.fst

/-- Worker for SQL DISTINCT: keep the first row of each primary key,
skipping keys already emitted (`seen`). -/
def dedupByIdAux (seen : List Nat) : List Item → List Item
  | [] => []
  | i :: rest =>
    if i.id ∈ seen then dedupByIdAux seen rest
    else i :: dedupByIdAux (i.id :: seen) rest

/-- SQL DISTINCT over item rows: keep the first row of each primary key. -/
def dedupById (l : List Item) : List Item := dedupByIdAux [] l

/-- `SimilarMoviesView.get_queryset`: resolve the reference item
(`get_object_or_404`), join the remaining active items with their genres
restricted to the reference item's genres
(`filter(genres__in=movie.genres.all(), active=True).exclude(pk=pk)`),
apply `.distinct()` and the `[:10]` slice. -/
def similarMovies (db : DB) (pk : Nat) : Except ApiError (List Item) :=
  match findItem db pk with
  | none => .error .notFound
  | some movie =>
    let rows := (db.items.filter (fun i => i.active && i.id != pk)).flatMap
      (fun i => (i.genres.filter (fun g => movie.genres.contains g)).map (fun _ => i))
    .ok ((dedupById rows).take 10)

/-! ### Concrete fixtures used to exercise the operations -/

/-- A fresh catalog item with no reviews. -/
def item1 : Item :=
  { id := 1, title := "m", storyline := "s", platform := 1, active := true,
    avg_rating := 0, number_rating := 0, created := 0, genres := [] }

/-- A snapshot holding only `item1`. -/
def db0 : DB := { items := [item1], reviews := [], nextReviewId := 1 }

/-- Submit rating 2 for `item1`, then the owner updates it to 4. -/
def c1Run : Except ApiError DB :=
  (createReview db0 7 1 2 none true false 0).bind
    (fun d => updateReview d 1 7 4 none none none)

/-- Submit rating 3 for `item1`, then the owner updates it to 5. -/
def c2Run : Except ApiError DB :=
  (createReview db0 7 1 3 none true false 0).bind
    (fun d => updateReview d 1 7 5 none none none)

/-- Submit rating 4 for `item1`, then the owner deletes the review. -/
def c3Run : Except ApiError DB :=
  (createReview db0 7 1 4 none true false 0).bind
    (fun d => deleteReview d 1 7)

/-- Submit a review for `item1` whose payload sets `active = False`
(the `ReviewSerializer` exposes `active` as a writable field). -/
def c4Db : Except ApiError DB := createReview db0 7 1 2 none false false 0

/-- A catalog-update payload that supplies the two derived aggregate
fields, which `WatchListSerializer` accepts as writable input. -/
def c5Payload : WatchListPayload :=
  { title := "m", storyline := "s", platform_id := 1, genre_ids := [],
    avg_rating := some 9, number_rating := some 99, active := none }

/-- Item A of the spec's top-rated example: 12 ratings, average 4.5. -/
def itemA : Item :=
  { id := 1, title := "A", storyline := "s", platform := 1, active := true,
    avg_rating := 9 / 2, number_rating := 12, created := 0, genres := [] }

/-- Item B of the spec's top-rated example: 11 ratings, average 4.5. -/
def itemB : Item :=
  { id := 2, title := "B", storyline := "s", platform := 1, active := true,
    avg_rating := 9 / 2, number_rating := 11, created := 0, genres := [] }

/-- Item C of the spec's top-rated example: 8 ratings, average 4.9. -/
def itemC : Item :=
  { id := 3, title := "C", storyline := "s", platform := 1, active := true,
    avg_rating := 49 / 10, number_rating := 8, created := 0, genres := [] }

/-- The view of the item table the aggregate claims talk about: each
row's primary key with its derived `avg_rating` / `number_rating` pair. -/
def aggregates (db : DB) : List (Nat × ℚ × Int) :=
  db.items.map (fun i => (i.id, i.avg_rating, i.number_rating))

/-- A stored review: user 7 rated `item1` with 3. -/
def rvR : Review :=
  { id := 1, review_user := 7, rating := 3, description := none, watchlist := 1,
    active := true, created := 0, is_spoiler := false, helpful_count := 0 }

/-- `item1` after absorbing `rvR` into its aggregate. -/
def itemR : Item := { item1 with avg_rating := 3, number_rating := 1 }

/-- A snapshot holding `itemR` and its single review `rvR`. -/
def dbR : DB := { items := [itemR], reviews := [rvR], nextReviewId := 2 }

/-- `dbR` after the owner rewrites the review's rating to 5. -/
def dbU2 : DB :=
  { items := [itemR], reviews := [{ rvR with rating := 5 }], nextReviewId := 2 }

/-- `dbR` after one helpful vote on `rvR`. -/
def dbH2 : DB :=
  { items := [itemR], reviews := [{ rvR with helpful_count := 1 }], nextReviewId := 2 }

/-- Reference item for the similar-items fixture: carries genre 10. -/
def itemS1 : Item :=
  { id := 1, title := "ref", storyline := "s", platform := 1, active := true,
    avg_rating := 0, number_rating := 0, created := 0, genres := [10] }

/-- A second item sharing genre 10 with `itemS1`. -/
def itemS2 : Item :=
  { id := 2, title := "other", storyline := "s", platform := 1, active := true,
    avg_rating := 0, number_rating := 0, created := 0, genres := [10, 11] }

/-- A snapshot with the two genre-sharing items and no reviews. -/
def dbS : DB := { items := [itemS1, itemS2], reviews := [], nextReviewId := 1 }

/-- The similar-items answer for `itemS1` inside `dbS`. -/
def similarCheck : List Item := [itemS2]

/-- A review of item 1 created at time 100, inside any trailing window
with cutoff 0. -/
def rvT : Review :=
  { id := 1, review_user := 7, rating := 5, description := none, watchlist := 1,
    active := true, created := 100, is_spoiler := false, helpful_count := 0 }

/-! ### Claim theorems -/

/-- Helper: a two-element merge sort is one comparison. -/
theorem mergeSort_pair {α : Type} (le : α → α → Bool) (a b : α) :
    [a, b].mergeSort le = if le a b then [a, b] else [b, a] := by
  simp [List.mergeSort, List.merge]

/-- C1: evidence of the divergence on the code — after the sequence
submit(user 7, item 1, rating 2); update(review 1 → rating 4) the stored
aggregate still reads average 2 with count 1, while the mean of the
currently-active reviews is 4: `ReviewDetail`'s update path never adjusts
the item aggregate, so the claimed invariant fails for this sequence. -/
theorem c1_update_leaves_aggregate_stale :
    c1Run.map (fun d =>
      ((findItem d 1).map (fun i => (i.avg_rating, i.number_rating)),
        specMeanRating d 1)) = .ok (some ((2 : ℚ), (1 : Int)), (4 : ℚ)) := by
  norm_num [c1Run, createReview, updateReview, db0, item1, findItem, findReview,
    saveItem, saveReview, validRating, isReviewOwner, activeReviews, specMeanRating,
    Except.bind, Except.map]

/-- C2: evidence of the divergence on the code — user 7 rates item 1 with
3 and then updates the rating to 5; the stored review now carries 5 and
`rating_count` stays 1, but `average_rating` remains 3 instead of
becoming 5: no adjust delta is applied by the update path. -/
theorem c2_update_applies_no_adjust_delta :
    c2Run.map (fun d =>
      ((findItem d 1).map (fun i => (i.avg_rating, i.number_rating)),
        (findReview d 1).map Review.rating)) =
      .ok (some ((3 : ℚ), (1 : Int)), some 5) := by
  norm_num [c2Run, createReview, updateReview, db0, item1, findItem, findReview,
    saveItem, saveReview, validRating, isReviewOwner, Except.bind, Except.map]

/-- C3: evidence of the divergence on the code — user 7 rates item 1 with
4 and then deletes the review, removing the item's last active review;
the active review set is empty afterwards, yet the aggregate still reads
average 4 with count 1 instead of resetting to 0/0: `ReviewDetail`'s
delete path never touches the aggregate. -/
theorem c3_delete_does_not_reset_aggregate :
    c3Run.map (fun d =>
      ((findItem d 1).map (fun i => (i.avg_rating, i.number_rating)),
        activeReviews d 1)) = .ok (some ((4 : ℚ), (1 : Int)), []) := by
  norm_num [c3Run, createReview, deleteReview, db0, item1, findItem, findReview,
    saveItem, saveReview, validRating, isReviewOwner, activeReviews,
    Except.bind, Except.map]

/-- C4: counterexample — starting from the empty review set, user 7
submits a review for item 1 whose payload sets `active = False`; the
resulting snapshot has NO active review for the pair (7, 1), yet a second
`CreateReview` for that pair still fails with `DuplicateReview`, because
the duplicate check filters on `(watchlist, review_user)` alone and
ignores the `active` flag.  So "fails iff an active review exists" is
false on the code. -/
theorem c4_counterexample :
    c4Db.map (fun d =>
      ((activeReviews d 1).any (fun r => r.review_user == 7),
        createReview d 7 1 5 none true false 1)) =
      .ok (false, .error .duplicateReview) := by
  norm_num [c4Db, createReview, db0, item1, findItem, saveItem, validRating,
    activeReviews, Except.map]

/-- C4 (amended): with a valid rating and an existing target item,
`CreateReview` fails with `DuplicateReview` exactly when some review row
— active or not — already pairs this user with this item; the
`ValidationError` is raised before the item or the review table is
written, so a failing call has no side effect on the aggregate. -/
theorem c4_duplicate_iff (db : DB) (userId pk rating : Nat) (d : Option String)
    (af sp : Bool) (now : Nat) (it : Item) (hr : validRating rating = true)
    (hit : findItem db pk = some it) :
    (createReview db userId pk rating d af sp now = .error .duplicateReview ↔
      db.reviews.any (fun r => r.watchlist == pk && r.review_user == userId) = true) := by
  unfold createReview
  rw [hit]
  cases hany : db.reviews.any (fun r => r.watchlist == pk && r.review_user == userId) <;>
    simp [hr, hany]

/-- C4 witness: instantiating the amended claim on `dbR`, where user 7
already holds review `rvR` on item 1. -/
theorem c4_duplicate_iff_witness :
    (createReview dbR 7 1 5 none true false 1 = .error .duplicateReview ↔
      dbR.reviews.any (fun r => r.watchlist == 1 && r.review_user == 7) = true) :=
  c4_duplicate_iff dbR 7 1 5 none true false 1 itemR rfl rfl

/-- C5: counterexample — a plain catalog-item PUT through
`WatchDetailAV`/`WatchListSerializer` whose payload carries
`avg_rating = 9` and `number_rating = 99` overwrites both derived fields
of item 1 (which held 0 and 0), because the serializer lists them among
its writable fields; so the external interface CAN set the aggregates. -/
theorem c5_counterexample :
    (watchListPut db0 1 c5Payload).map
      (fun d => (findItem d 1).map (fun i => (i.avg_rating, i.number_rating))) =
      .ok (some ((9 : ℚ), (99 : Int))) := by
  norm_num [watchListPut, db0, item1, c5Payload, findItem, saveItem, Except.map]

/-- C5 (amended): the review update, review delete and helpful-vote
operations indeed never change any item's `avg_rating`/`number_rating`
pair, but a catalog-item create/update through `WatchListSerializer` can
set both derived fields, since the serializer exposes them as writable. -/
theorem c5_aggregate_writers :
    (∀ db rid aid nr nd na ns db',
      updateReview db rid aid nr nd na ns = .ok db' → aggregates db' = aggregates db) ∧
    (∀ db rid aid db',
      deleteReview db rid aid = .ok db' → aggregates db' = aggregates db) ∧
    (∀ db pk n db',
      markHelpful db pk = .ok (n, db') → aggregates db' = aggregates db) ∧
    (watchListPut db0 1 c5Payload).map
      (fun d => (findItem d 1).map (fun i => (i.avg_rating, i.number_rating))) =
      .ok (some ((9 : ℚ), (99 : Int))) := by
  refine ⟨?_, ?_, ?_, ?_⟩
  · intro db rid aid nr nd na ns db' h
    unfold updateReview at h
    cases hf : findReview db rid <;> simp only [hf] at h
    · simp at h
    · split at h
      · simp at h
      · split at h
        · simp at h
        · injection h with h
          subst h
          rfl
  · intro db rid aid db' h
    unfold deleteReview at h
    cases hf : findReview db rid <;> simp only [hf] at h
    · simp at h
    · split at h
      · simp at h
      · injection h with h
        subst h
        rfl
  · intro db pk n db' h
    unfold markHelpful at h
    cases hf : findReview db pk <;> simp only [hf] at h
    · simp at h
    · simp only [Except.ok.injEq, Prod.mk.injEq] at h
      obtain ⟨h1, h2⟩ := h
      subst h2
      rfl
  · norm_num [watchListPut, db0, item1, c5Payload, findItem, saveItem, Except.map]

/-- C5 witness: the frame part of the amended claim instantiated on the
concrete update of `rvR`'s rating in `dbR`. -/
theorem c5_aggregate_writers_witness : aggregates dbU2 = aggregates dbR :=
  c5_aggregate_writers.1 dbR 1 7 5 none none none dbU2 rfl

/-- C6: counterexample — `order_by('-avg_rating')` names no secondary
key, so rows tying on the average keep the backend's underlying order;
with the snapshot holding B before A (both averaging 4.5, with
id(A) = 1 < 2 = id(B), C excluded by its count of 8), top-rated answers
[B, A], not the claimed [A, B]: no id-ascending tie-break exists in the
code. -/
theorem c6_counterexample :
    topRatedMovies [itemB, itemA, itemC] = [itemB, itemA] ∧
      topRatedMovies [itemB, itemA, itemC] ≠ [itemA, itemB] := by
  have h : topRatedMovies [itemB, itemA, itemC] = [itemB, itemA] := by
    norm_num [topRatedMovies, topRatedQualifies, itemA, itemB, itemC, mergeSort_pair]
  refine ⟨h, ?_⟩
  rw [h]
  simp [itemA, itemB, Item.mk.injEq]

/-- C6 (amended): top-rated returns the active items with at least 10
ratings ordered by `avg_rating` descending and truncated to 50, but rows
tying on the average keep the underlying snapshot order — the code has
no id-ascending tie-break; whenever at most 50 items qualify, the result
is a permutation of the qualifying items. -/
theorem c6_top_rated (items : List Item) :
    (∀ i ∈ topRatedMovies items, i.active = true ∧ (10 : Int) ≤ i.number_rating) ∧
    List.Pairwise (fun a b => b.avg_rating ≤ a.avg_rating) (topRatedMovies items) ∧
    (topRatedMovies items).length ≤ 50 ∧
    ((items.filter topRatedQualifies).length ≤ 50 →
      (topRatedMovies items).Perm (items.filter topRatedQualifies)) := by
  refine ⟨?_, ?_, ?_, ?_⟩
  · intro i hi
    have hm : i ∈ items.filter topRatedQualifies :=
      List.mem_mergeSort.mp (List.mem_of_mem_take hi)
    have hq := List.of_mem_filter hm
    unfold topRatedQualifies at hq
    simp only [Bool.and_eq_true, decide_eq_true_eq] at hq
    exact ⟨hq.2, hq.1⟩
  · have hs := @List.sorted_mergeSort Item
      (fun a b : Item => decide (b.avg_rating ≤ a.avg_rating))
      (fun a b c hab hbc => by
        simp only [decide_eq_true_eq] at *
        exact le_trans hbc hab)
      (fun a b => by
        simp only [Bool.or_eq_true, decide_eq_true_eq]
        exact le_total _ _)
      (items.filter topRatedQualifies)
    have hp := hs.imp (fun hab => of_decide_eq_true hab)
    exact List.Pairwise.sublist (List.take_sublist _ _) hp
  · exact List.length_take_le 50 _
  · intro hlen
    have hfull : ((items.filter topRatedQualifies).mergeSort
        (fun a b => decide (b.avg_rating ≤ a.avg_rating))).take 50 =
        (items.filter topRatedQualifies).mergeSort
          (fun a b => decide (b.avg_rating ≤ a.avg_rating)) := by
      apply List.take_of_length_le
      rw [List.length_mergeSort]
      exact hlen
    unfold topRatedMovies
    rw [hfull]
    exact List.mergeSort_perm _ _

/-- C6 witness: the permutation part of the amended claim instantiated on
the example snapshot [B, A, C]. -/
theorem c6_top_rated_witness :
    (topRatedMovies [itemB, itemA, itemC]).Perm
      ([itemB, itemA, itemC].filter topRatedQualifies) :=
  (c6_top_rated [itemB, itemA, itemC]).2.2.2 (by decide)

/-- Helper: a rating outside [1, 5] fails the model validators. -/
theorem validRating_eq_false {r : Nat} (h : r < 1 ∨ 5 < r) : validRating r = false := by
  unfold validRating
  rcases h with h | h
  · have h1 : ¬ (1 ≤ r) := by omega
    simp [h1]
  · have h1 : ¬ (r ≤ 5) := by omega
    simp [h1]

/-- Helper: the boundary ratings 1 and 5 pass the model validators. -/
theorem validRating_eq_true {r : Nat} (h : r = 1 ∨ r = 5) : validRating r = true := by
  rcases h with h | h <;> subst h <;> rfl

/-- C8: the `MinValueValidator(1)`/`MaxValueValidator(5)` pair on
`Review.rating` makes every create or update carrying a rating outside
[1, 5] fail with `InvalidRating` — the serializer rejects it before any
row is written, so the review set and the aggregate are untouched — while
the boundary ratings 1 and 5 pass validation and the operation succeeds
(given, for a create, an existing item and no prior review by the user,
and for an update, an existing review owned by the actor). -/
theorem c8_rating_validation :
    (∀ db userId pk r d af sp now, r < 1 ∨ 5 < r →
      createReview db userId pk r d af sp now = .error .invalidRating) ∧
    (∀ db rid aid r nd na ns rv, findReview db rid = some rv → rv.review_user = aid →
      r < 1 ∨ 5 < r → updateReview db rid aid r nd na ns = .error .invalidRating) ∧
    (∀ db userId pk r d af sp now it, r = 1 ∨ r = 5 → findItem db pk = some it →
      db.reviews.any (fun s => s.watchlist == pk && s.review_user == userId) = false →
      ∃ db', createReview db userId pk r d af sp now = .ok db') ∧
    (∀ db rid aid r nd na ns rv, r = 1 ∨ r = 5 → findReview db rid = some rv →
      rv.review_user = aid → ∃ db', updateReview db rid aid r nd na ns = .ok db') := by
  refine ⟨?_, ?_, ?_, ?_⟩
  · intro db userId pk r d af sp now h
    simp [createReview, validRating_eq_false h]
  · intro db rid aid r nd na ns rv hfind hown h
    simp [updateReview, hfind, isReviewOwner, hown, validRating_eq_false h]
  · intro db userId pk r d af sp now it h hit hdup
    simp [createReview, validRating_eq_true h, hit, hdup]
  · intro db rid aid r nd na ns rv h hfind hown
    simp [updateReview, hfind, isReviewOwner, hown, validRating_eq_true h]

/-- C8 witness: rating 6 is rejected on the concrete empty-review
snapshot. -/
theorem c8_rating_validation_witness :
    createReview db0 7 1 6 none true false 0 = .error .invalidRating :=
  c8_rating_validation.1 db0 7 1 6 none true false 0 (Or.inr (by omega))

/-- C9: a single `MarkHelpful(pk)` call fails with `NotFound` exactly when
no review row carries that primary key (and then no row is written);
otherwise it returns the fetched review's `helpful_count + 1`, writes
exactly that incremented row back, and leaves the item table, the other
review rows and the id counter untouched. -/
theorem c9_mark_helpful (db db' : DB) (pk : Nat) (n : Int) :
    (markHelpful db pk = .error .notFound ↔ ∀ rv ∈ db.reviews, rv.id ≠ pk) ∧
    (markHelpful db pk = .ok (n, db') → ∀ rv, findReview db pk = some rv →
      n = rv.helpful_count + 1 ∧ db'.items = db.items ∧
      db'.nextReviewId = db.nextReviewId ∧
      db'.reviews = db.reviews.map (fun s =>
        if s.id == rv.id then { rv with helpful_count := rv.helpful_count + 1 } else s) ∧
      ∀ s ∈ db.reviews, s.id ≠ rv.id → s ∈ db'.reviews) := by
  constructor
  · unfold markHelpful findReview
    cases hf : db.reviews.find? (fun r => r.id == pk) with
    | none =>
      simp only [List.find?_eq_none] at hf
      constructor
      · intro _ rv hrv
        simpa using hf rv hrv
      · intro _
        rfl
    | some rv =>
      constructor
      · intro h
        exact absurd h (by simp)
      · intro hall
        have hrv := List.mem_of_find?_eq_some hf
        have hid : rv.id = pk := by simpa using List.find?_some hf
        exact absurd hid (hall rv hrv)
  · intro h rv hf2
    unfold markHelpful at h
    simp only [hf2] at h
    simp only [Except.ok.injEq, Prod.mk.injEq] at h
    obtain ⟨h1, h2⟩ := h
    subst h2
    refine ⟨by simpa using h1.symm, rfl, rfl, rfl, ?_⟩
    intro s hs hne
    refine List.mem_map.mpr ⟨s, hs, ?_⟩
    have hb : (s.id == rv.id) = false := by simpa using hne
    simp [saveReview, hb]

/-- C9 witness: one helpful vote on `rvR` inside `dbR` returns 1 and
leaves the item table unchanged. -/
theorem c9_mark_helpful_witness :
    (1 : Int) = rvR.helpful_count + 1 ∧ dbH2.items = dbR.items := by
  have h := (c9_mark_helpful dbR dbH2 1 1).2 rfl rvR rfl
  exact ⟨h.1, h.2.1⟩

/-- Helper: every row kept by DISTINCT comes from the input. -/
theorem mem_of_mem_dedupByIdAux {seen : List Nat} {l : List Item} {x : Item}
    (hx : x ∈ dedupByIdAux seen l) : x ∈ l := by
  induction l generalizing seen with
  | nil => simp [dedupByIdAux] at hx
  | cons i rest ih =>
    unfold dedupByIdAux at hx
    split at hx
    · exact List.mem_cons_of_mem _ (ih hx)
    · rcases List.mem_cons.mp hx with h | h
      · exact h ▸ List.mem_cons_self _ _
      · exact List.mem_cons_of_mem _ (ih h)

/-- Helper: DISTINCT never emits a primary key it has already seen. -/
theorem id_not_seen_of_mem_dedupByIdAux {seen : List Nat} {l : List Item} {x : Item}
    (hx : x ∈ dedupByIdAux seen l) : x.id ∉ seen := by
  induction l generalizing seen with
  | nil => simp [dedupByIdAux] at hx
  | cons i rest ih =>
    unfold dedupByIdAux at hx
    split at hx
    · exact ih hx
    · rename_i hc
      rcases List.mem_cons.mp hx with h | h
      · subst h
        exact hc
      · intro hmem
        exact (ih h) (List.mem_cons_of_mem _ hmem)

/-- Helper: DISTINCT leaves no duplicate primary keys. -/
theorem nodup_map_id_dedupByIdAux (seen : List Nat) (l : List Item) :
    ((dedupByIdAux seen l).map Item.id).Nodup := by
  induction l generalizing seen with
  | nil => simp [dedupByIdAux]
  | cons i rest ih =>
    unfold dedupByIdAux
    split
    · exact ih _
    · simp only [List.map_cons, List.nodup_cons]
      refine ⟨?_, ih _⟩
      intro hmem
      rcases List.mem_map.mp hmem with ⟨y, hy, hid⟩
      have hns := id_not_seen_of_mem_dedupByIdAux hy
      exact hns (by rw [hid]; exact List.mem_cons_self _ _)

/-- C10: for a resolved reference item, `GetSimilar` returns at most 10
rows, each active, each sharing at least one genre with the reference,
with no primary key repeated — even when an item shares several genres
with the reference and therefore occurs several times in the underlying
genre join — and the reference item itself never appears, even though it
trivially shares all of its own genres. -/
theorem c10_similar (db : DB) (pk : Nat) (movie : Item) (res : List Item)
    (hm : findItem db pk = some movie) (h : similarMovies db pk = .ok res) :
    (res.map Item.id).Nodup ∧ movie ∉ res ∧ res.length ≤ 10 ∧
    ∀ i ∈ res, i.active = true ∧ i.id ≠ pk ∧
      (i.genres.any (fun g => movie.genres.contains g)) = true := by
  have hmid : movie.id = pk := by
    have := List.find?_some hm
    simpa using this
  unfold similarMovies at h
  simp only [hm] at h
  injection h with h
  subst h
  have hsound : ∀ i,
      i ∈ (dedupById ((db.items.filter (fun i => i.active && i.id != pk)).flatMap
        (fun i => (i.genres.filter (fun g => movie.genres.contains g)).map
          (fun _ => i)))).take 10 →
      i.active = true ∧ i.id ≠ pk ∧
        (i.genres.any (fun g => movie.genres.contains g)) = true := by
    intro i hi
    have hrow := mem_of_mem_dedupByIdAux (List.mem_of_mem_take hi)
    rcases List.mem_flatMap.mp hrow with ⟨j, hj, hij⟩
    rcases List.mem_map.mp hij with ⟨g, hg, heq⟩
    subst heq
    have hq := List.of_mem_filter hj
    simp only [Bool.and_eq_true, bne_iff_ne, ne_eq] at hq
    refine ⟨hq.1, hq.2, ?_⟩
    exact List.any_eq_true.mpr ⟨g, List.mem_of_mem_filter hg, List.of_mem_filter hg⟩
  refine ⟨?_, ?_, ?_, hsound⟩
  · exact List.Nodup.sublist ((List.take_sublist _ _).map _)
      (nodup_map_id_dedupByIdAux [] _)
  · intro hmem
    exact (hsound movie hmem).2.1 hmid
  · exact List.length_take_le 10 _

/-- C10 witness: instantiating on a two-item snapshot where item 2 shares
genre 10 with the reference item 1. -/
theorem c10_similar_witness :
    ((similarCheck.map Item.id).Nodup ∧ itemS1 ∉ similarCheck) := by
  have h := c10_similar dbS 1 itemS1 similarCheck rfl rfl
  exact ⟨h.1, h.2.1⟩

/-- Helper: the first component of any join row is one of the joined
items. -/
theorem fst_mem_of_mem_blocks {l : List Item} {f : Item → List Review} {p : Item × Review}
    (hp : p ∈ l.flatMap (fun i => (f i).map (fun r => (i, r)))) : p.1 ∈ l := by
  rcases List.mem_flatMap.mp hp with ⟨i, hi, hpi⟩
  rcases List.mem_map.mp hpi with ⟨r, _, hr⟩
  subst hr
  exact hi

/-- Helper: the GROUP BY worker skips every row whose key was already
emitted. -/
theorem groupRowsAux_append_seen {seen : List Nat} {xs ys : List (Item × Review)}
    (hxs : ∀ p ∈ xs, p.1.id ∈ seen) :
    groupRowsAux seen (xs ++ ys) = groupRowsAux seen ys := by
  induction xs with
  | nil => rfl
  | cons q qs ih =>
    obtain ⟨i, r⟩ := q
    have hq : i.id ∈ seen := hxs (i, r) (List.mem_cons_self _ _)
    rw [List.cons_append]
    show (if i.id ∈ seen then groupRowsAux seen (qs ++ ys)
      else (i, 1 + (qs ++ ys).countP (fun p => p.1.id == i.id)) ::
        groupRowsAux (i.id :: seen) (qs ++ ys)) = groupRowsAux seen ys
    rw [if_pos hq]
    exact ih (fun p hp => hxs p (List.mem_cons_of_mem _ hp))

/-- Helper: on a block-structured join (one block of rows per item, item
keys pairwise distinct and unseen), the GROUP BY worker emits one row per
item with a non-empty block, carrying the block's length as its count. -/
theorem groupRowsAux_blocks (f : Item → List Review) (l : List Item) (seen : List Nat)
    (hnd : (l.map Item.id).Nodup) (hseen : ∀ i ∈ l, i.id ∉ seen) :
    groupRowsAux seen (l.flatMap (fun i => (f i).map (fun r => (i, r)))) =
      (l.filter (fun i => !(f i).isEmpty)).map (fun i => (i, (f i).length)) := by
  induction l generalizing seen with
  | nil => rfl
  | cons i tl ih =>
    simp only [List.map_cons, List.nodup_cons] at hnd
    obtain ⟨hni, hndtl⟩ := hnd
    have hseentl : ∀ j ∈ tl, j.id ∉ seen :=
      fun j hj => hseen j (List.mem_cons_of_mem _ hj)
    cases hfi : f i with
    | nil =>
      rw [List.flatMap_cons, hfi]
      simp only [List.map_nil, List.nil_append]
      rw [ih seen hndtl hseentl, List.filter_cons]
      simp [hfi]
    | cons r rs =>
      rw [List.flatMap_cons, hfi]
      simp only [List.map_cons, List.cons_append]
      unfold groupRowsAux
      rw [if_neg (hseen i (List.mem_cons_self _ _))]
      have hcnt1 : (rs.map (fun s => (i, s))).countP (fun p => p.1.id == i.id) =
          rs.length := by
        rw [List.countP_map]
        simp [Function.comp]
      have hcnt2 : (tl.flatMap (fun j => (f j).map (fun r => (j, r)))).countP
          (fun p => p.1.id == i.id) = 0 := by
        rw [List.countP_eq_zero]
        intro p hp
        have hmem : p.1.id ∈ tl.map Item.id :=
          List.mem_map_of_mem _ (fst_mem_of_mem_blocks hp)
        simp only [beq_iff_eq]
        intro hpe
        exact hni (hpe ▸ hmem)
      rw [List.countP_append, hcnt1, hcnt2]
      rw [groupRowsAux_append_seen (fun p hp => ?_)]
      · rw [ih (i.id :: seen) hndtl (fun j hj => ?_)]
        · rw [List.filter_cons]
          simp only [hfi, List.isEmpty_cons, Bool.not_false, if_pos]
          simp [hfi, Nat.add_comm]
        · intro hmem
          rcases List.mem_cons.mp hmem with h | h
          · exact hni (h ▸ List.mem_map_of_mem _ hj)
          · exact hseentl j hj h
      · rcases List.mem_map.mp hp with ⟨s, _, hs⟩
        subst hs
        exact List.mem_cons_self _ _

/-- C7: over any snapshot with distinct item primary keys, trending
returns only active items having at least one review created inside the
trailing window, in descending order of the number of THAT ITEM's reviews
inside the window — the annotation counts the window-filtered join rows,
not the item's total review count — and at most 10 rows. -/
theorem c7_trending (items : List Item) (reviews : List Review) (cutoff : Nat)
    (hnd : (items.map Item.id).Nodup) :
    (∀ i ∈ trendingMovies items reviews cutoff,
      i.active = true ∧ 1 ≤ (recentReviews reviews cutoff i.id).length) ∧
    List.Pairwise (fun a b =>
      (recentReviews reviews cutoff b.id).length ≤
        (recentReviews reviews cutoff a.id).length)
      (trendingMovies items reviews cutoff) ∧
    (trendingMovies items reviews cutoff).length ≤ 10 := by
  have hndf : ((items.filter (fun i => i.active)).map Item.id).Nodup :=
    List.Nodup.sublist ((List.filter_sublist items).map _) hnd
  have hgroup : groupRows (trendingJoin items reviews cutoff) =
      ((items.filter (fun i => i.active)).filter
        (fun i => !(recentReviews reviews cutoff i.id).isEmpty)).map
        (fun i => (i, (recentReviews reviews cutoff i.id).length)) := by
    unfold groupRows trendingJoin
    exact groupRowsAux_blocks (fun i => recentReviews reviews cutoff i.id)
      (items.filter (fun i => i.active)) [] hndf (by simp)
  unfold trendingMovies
  rw [hgroup]
  refine ⟨?_, ?_, ?_⟩
  · intro i hi
    rcases List.mem_map.mp hi with ⟨p, hp, hpe⟩
    have hpG := List.mem_mergeSort.mp (List.mem_of_mem_take hp)
    rcases List.mem_map.mp hpG with ⟨j, hj, hje⟩
    subst hje
    have hji : j = i := hpe
    subst hji
    have h1 := List.of_mem_filter hj
    have h2 := List.of_mem_filter (List.mem_of_mem_filter hj)
    refine ⟨h2, ?_⟩
    have hne : recentReviews reviews cutoff j.id ≠ [] :=
      List.isEmpty_eq_false.mp (by simpa using h1)
    exact List.length_pos.mpr hne
  · have hs := @List.sorted_mergeSort (Item × Nat)
      (fun a b : Item × Nat => decide (b.2 ≤ a.2))
      (fun a b c hab hbc => by
        simp only [decide_eq_true_eq] at *
        exact le_trans hbc hab)
      (fun a b => by
        simp only [Bool.or_eq_true, decide_eq_true_eq]
        exact Nat.le_total _ _)
      (((items.filter (fun i => i.active)).filter
        (fun i => !(recentReviews reviews cutoff i.id).isEmpty)).map
        (fun i => (i, (recentReviews reviews cutoff i.id).length)))
    have hs2 : List.Pairwise (fun p q : Item × Nat =>
        (recentReviews reviews cutoff q.1.id).length ≤
          (recentReviews reviews cutoff p.1.id).length)
        ((((items.filter (fun i => i.active)).filter
          (fun i => !(recentReviews reviews cutoff i.id).isEmpty)).map
          (fun i => (i, (recentReviews reviews cutoff i.id).length))).mergeSort
          (fun a b => decide (b.2 ≤ a.2))) := by
      refine hs.imp_of_mem ?_
      intro p q hp hq hle
      have hpG := List.mem_mergeSort.mp hp
      have hqG := List.mem_mergeSort.mp hq
      rcases List.mem_map.mp hpG with ⟨a, _, ha⟩
      rcases List.mem_map.mp hqG with ⟨b, _, hb⟩
      subst ha
      subst hb
      simpa using hle
    have hs3 := List.Pairwise.sublist (List.take_sublist 10 _) hs2
    exact List.pairwise_map.mpr hs3
  · rw [List.length_map]
    exact List.length_take_le 10 _

/-- C7 witness: instantiating on the snapshot holding `itemR` and the
in-window review `rvT`. -/
theorem c7_trending_witness :
    (trendingMovies [itemR] [rvT] 0).length ≤ 10 :=
  (c7_trending [itemR] [rvT] 0 (by simp)).2.2

end Watchmate
